import Mathlib

/- Verification of the animation and audio generators of the nextjs-webxr
   zen-garden scene.  The numeric code is embedded over ℚ; the host
   trigonometric and exponential primitives (Math.sin, Math.cos, Math.exp)
   are abstracted as function parameters, with bounds such as |sin u| ≤ 1
   taken as hypotheses where a claim needs them, and each Math.random()
   call site is an explicit input stream of rationals in [0, 1). -/

/-- Fixed construction parameters of one FloatingOrb
    (src/unnamed/part_001, lines 9-21): position [posX, posY, posZ],
    size and speed; initialY of the source is posY. -/
structure FloatingOrbParams where
  posX : ℚ
  posY : ℚ
  posZ : ℚ
  size : ℚ
  speed : ℚ

/-- The mutable per-orb scene state written by the per-frame callback:
    the mesh position and the material emissive intensity. -/
structure OrbState where
  curX : ℚ
  curY : ℚ
  curZ : ℚ
  emissive : ℚ

/-- Per-frame animator body of FloatingOrb (src/unnamed/part_001, lines
    24-41), with s and c standing for Math.sin and Math.cos:
    time = elapsed * speed;
    position.y = initialY + sin(time) * 0.3;
    position.x = position[0] + cos(time * 0.7) * 0.2;
    position.z = position[2] + sin(time * 0.5) * 0.15;
    emissiveIntensity = 0.3 + sin(time * 2) * 0.1.
    The previous scene state _st is overwritten wholesale. -/
def floatingOrbFrame (s c : ℚ → ℚ) (p : FloatingOrbParams) (t : ℚ)
    (_st : OrbState) : OrbState :=
  { curX := p.posX + c (t * p.speed * 0.7) * 0.2
    curY := p.posY + s (t * p.speed) * 0.3
    curZ := p.posZ + s (t * p.speed * 0.5) * 0.15
    emissive := 0.3 + s (t * p.speed * 2) * 0.1 }

/-- Per-frame animator of the FloatingIsland group
    (src/app/components/FloatingIsland.tsx, lines 38-44):
    position.y = sin(t * 0.3) * 0.1 and rotation.y = t * 0.01. -/
def floatingIslandFrame (s : ℚ → ℚ) (t : ℚ) : ℚ × ℚ :=
  (s (t * 0.3) * 0.1, t * 0.01)

/-- Height displacement of one island vertex
    (src/app/components/FloatingIsland.tsx, lines 21-30), with the two
    noise amplitudes (0.3 and 0.2 in the source) kept as parameters:
    noise = sin(distance * 0.2) * a1 + cos(x * 0.1) * a2, and the new
    height is y + noise. -/
def islandDisplaceY (s c : ℚ → ℚ) (a1 a2 dist x y : ℚ) : ℚ :=
  y + (s (dist * 0.2) * a1 + c (x * 0.1) * a2)

/-- Elevation computed by the ZenGarden terrain generator
    (src/unnamed/part_003, lines 269-281), with the four amplitudes
    (0.3, 0.2, 0.1, 0.15 in the source) kept as parameters. -/
def zenGardenElevation (s c : ℚ → ℚ) (b1 b2 b3 b4 x z : ℚ) : ℚ :=
  s (x * 0.1) * b1 + c (z * 0.15) * b2 + s (x * 0.3 + z * 0.2) * b3 +
    c (x * 0.05 + z * 0.08) * b4

/-- The ZenGarden generator ASSIGNS the elevation to the vertex height
    slot (vertices[i + 1] = elevation, src/unnamed/part_003, line 280):
    the base coordinate _y stored there is discarded, not displaced. -/
def zenGardenDisplaceY (s c : ℚ → ℚ) (b1 b2 b3 b4 x _y z : ℚ) : ℚ :=
  zenGardenElevation s c b1 b2 b3 b4 x z

/-- One per-frame height update of a dust particle in AtmosphericEffects
    (src/unnamed/part_001, lines 414-422): the stored height is advanced
    by the particle's y velocity, then a height above 45 is reset to 5. -/
def dustStepY (vy y : ℚ) : ℚ :=
  if 45 < y + vy then 5 else y + vy

/-- The dust height after n successive frames. -/
def dustIterY (vy y : ℚ) : ℕ → ℚ
  | 0 => y
  | n + 1 => dustStepY vy (dustIterY vy y n)

/-- Re-randomization of a dust x or z coordinate, used both at
    construction and when the coordinate drifts out of bounds
    (src/unnamed/part_001, lines 349-351 and 424-429):
    (Math.random() - 0.5) * 80, with r the fresh draw. -/
def dustResetXZ (r : ℚ) : ℚ := (r - 0.5) * 80

/-- One per-frame update of a dust x (or, symmetrically, z) coordinate
    (src/unnamed/part_001, lines 414-429): advance by the velocity, then
    re-randomize when the magnitude exceeds 40. -/
def dustStepX (r vx x : ℚ) : ℚ :=
  if 40 < |x + vx| then dustResetXZ r else x + vx

/-- Modelled from the spec: the "re-randomized value within the valid
    band" that the boundary policy claims for a wrapped dust height,
    mirroring the construction-time height randomization
    Math.random() * 40 + 5 into [5, 45) (src/unnamed/part_001, line 350).
    The per-frame code has no such draw: it resets the height to the
    constant 5. -/
def dustHeightRandSpec (r : ℚ) : ℚ := r * 40 + 5

/-- One sample of the water voice
    (src/app/components/AmbientSounds.tsx, lines 50-57):
    whiteNoise = Math.random() * 2 - 1;
    flowPattern = sin(i * 0.001) * 0.3;
    bubbleEffect = sin(i * 0.01) * Math.random() * 0.2;
    data[i] = (whiteNoise * 0.5 + flowPattern + bubbleEffect) * 0.3.
    w and r are the two Math.random() draw streams and s is Math.sin. -/
def waterSample (s : ℚ → ℚ) (w r : ℕ → ℚ) (i : ℕ) : ℚ :=
  ((w i * 2 - 1) * 0.5 + s (i * 0.001) * 0.3 + s (i * 0.01) * r i * 0.2) * 0.3

/-- The water voice buffer of createWaterSound
    (src/app/components/AmbientSounds.tsx, lines 43-57):
    bufferSize = sampleRate * 4 (4 seconds of audio). -/
def createWaterSound (sampleRate : ℕ) (s : ℚ → ℚ) (w r : ℕ → ℚ) : List ℚ :=
  (List.range (sampleRate * 4)).map (waterSample s w r)

/-- One sample of the birds voice
    (src/app/components/AmbientSounds.tsx, lines 86-97).  trig is the
    per-sample trigger draw stream (a chirp sample is written only when
    the draw exceeds 0.999), fr the frequency draw stream, s Math.sin,
    e Math.exp and twoPi the value 2 * Math.PI:
    freq = 800 + fr i * 1200; decay = exp(-(i * 0.0001));
    sample = sin(twoPi * freq * i / sampleRate) * decay * 0.1. -/
def birdSample (sr : ℕ) (s e : ℚ → ℚ) (twoPi : ℚ) (trig fr : ℕ → ℚ)
    (i : ℕ) : ℚ :=
  if 0.999 < trig i then
    s (twoPi * (800 + fr i * 1200) * i / sr) * e (-(i * 0.0001)) * 0.1
  else 0

/-- One sample of the bubbles voice of createBubbleSound
    (src/app/components/StreamAudio.tsx, lines 89-100): trigger
    threshold 0.9995, freq = 200 + fr i * 400, amplitude 0.05, same
    decay envelope exp(-(i * 0.0001)). -/
def bubbleSample (sr : ℕ) (s e : ℚ → ℚ) (twoPi : ℚ) (trig fr : ℕ → ℚ)
    (i : ℕ) : ℚ :=
  if 0.9995 < trig i then
    s (twoPi * (200 + fr i * 400) * i / sr) * e (-(i * 0.0001)) * 0.05
  else 0

/-- A WebAudio buffer source as seen by the components: how many times
    start() and stop() have been invoked on it. -/
structure SrcNode where
  started : ℕ
  stopped : ℕ

/-- The ref-held sources of AmbientSounds
    (src/app/components/AmbientSounds.tsx, lines 10-15). -/
structure AmbientRefs where
  waterSource : Option SrcNode
  birdsSource : Option SrcNode
  breezeSource : Option SrcNode

/-- AmbientSounds component state: whether the AudioContext has been
    created, the isPlaying flag, and the ref-held sources. -/
structure AmbientState where
  ctxCreated : Bool
  isPlaying : Bool
  refs : AmbientRefs

/-- Effect of `if (audioRefs.current.x) audioRefs.current.x.stop()` on
    one ref slot: the stop count of a present node is incremented; the
    ref itself is never cleared. -/
def stopNode : Option SrcNode → Option SrcNode
  | none => none
  | some n => some { n with stopped := n.stopped + 1 }

/-- stopAmbientSounds (src/app/components/AmbientSounds.tsx, lines
    163-169): stop each present source, set isPlaying to false; the
    refs keep pointing at the stopped sources. -/
def stopAmbientSounds (st : AmbientState) : AmbientState :=
  { st with
    refs := { waterSource := stopNode st.refs.waterSource
              birdsSource := stopNode st.refs.birdsSource
              breezeSource := stopNode st.refs.breezeSource }
    isPlaying := false }

/-- A freshly created source on which start() has run once
    (createXSound followed by .start()). -/
def freshSource : SrcNode := { started := 1, stopped := 0 }

/-- startAmbientSounds (src/app/components/AmbientSounds.tsx, lines
    138-160).  The guard `if (!audioContext || isPlaying) return` reads
    the audioContext and isPlaying values captured by the React render
    closure that created the callback (ctxC and isP); on the successful
    path three sources are created, started and stored in the refs, and
    isPlaying is set. -/
def startAmbientSoundsC (ctxC isP : Bool) (st : AmbientState) : AmbientState :=
  if ctxC = false ∨ isP = true then st
  else
    { st with
      refs := { waterSource := some freshSource
                birdsSource := some freshSource
                breezeSource := some freshSource }
      isPlaying := true }

/-- startAmbientSounds invoked with closure values that match the
    current state (the ordinary, non-stale call). -/
def startAmbientSounds (st : AmbientState) : AmbientState :=
  startAmbientSoundsC st.ctxCreated st.isPlaying st

/-- Ambient audio state right after the AudioContext-creation effect has
    run: context created, nothing playing, no sources yet. -/
def ambientInit : AmbientState :=
  { ctxCreated := true, isPlaying := false
    refs := { waterSource := none, birdsSource := none, breezeSource := none } }

/-- The ref-held sources of StreamAudio
    (src/app/components/StreamAudio.tsx, lines 10-15). -/
structure StreamRefs where
  streamSource : Option SrcNode
  bubblesSource : Option SrcNode
  gentleFlowSource : Option SrcNode

/-- StreamAudio component state, parallel to AmbientState. -/
structure StreamState where
  ctxCreated : Bool
  isPlaying : Bool
  refs : StreamRefs

/-- stopStreamAudio (src/app/components/StreamAudio.tsx, lines 176-182):
    stop each present source, set isPlaying to false; refs not cleared. -/
def stopStreamAudioModel (st : StreamState) : StreamState :=
  { st with
    refs := { streamSource := stopNode st.refs.streamSource
              bubblesSource := stopNode st.refs.bubblesSource
              gentleFlowSource := stopNode st.refs.gentleFlowSource }
    isPlaying := false }

/-- startStreamAudio (src/app/components/StreamAudio.tsx, lines 151-173)
    with explicit captured closure values, parallel to
    startAmbientSoundsC. -/
def startStreamAudioModelC (ctxC isP : Bool) (st : StreamState) : StreamState :=
  if ctxC = false ∨ isP = true then st
  else
    { st with
      refs := { streamSource := some freshSource
                bubblesSource := some freshSource
                gentleFlowSource := some freshSource }
      isPlaying := true }

/-- startStreamAudio invoked with closure values matching the state. -/
def startStreamAudioModel (st : StreamState) : StreamState :=
  startStreamAudioModelC st.ctxCreated st.isPlaying st

/-- C1: the FloatingOrb per-frame animator is deterministic and
idempotent: with the same parameters and elapsed time it writes
bit-identical position offsets and emissive intensity, independent of
the mutable scene state left by earlier frames (no internal mutable
counters). -/
theorem floatingOrb_frame_deterministic (s c : ℚ → ℚ)
    (p : FloatingOrbParams) (t : ℚ) (st1 st2 : OrbState) :
    floatingOrbFrame s c p t st1 = floatingOrbFrame s c p t st2 ∧
    floatingOrbFrame s c p t (floatingOrbFrame s c p t st1) =
      floatingOrbFrame s c p t st1 :=
  ⟨rfl, rfl⟩

/-- C5: sinusoidal position offsets stay within the configured
amplitudes: for a FloatingOrb |y - initialY| ≤ 0.3, |x - x0| ≤ 0.2 and
|z - z0| ≤ 0.15, and for the FloatingIsland group |position.y| ≤ 0.1,
at every time t, given that sin and cos are bounded by 1. -/
theorem orb_island_offsets_bounded (s c : ℚ → ℚ)
    (hs : ∀ u, |s u| ≤ 1) (hc : ∀ u, |c u| ≤ 1)
    (p : FloatingOrbParams) (t : ℚ) (st : OrbState) :
    |(floatingOrbFrame s c p t st).curY - p.posY| ≤ 0.3 ∧
    |(floatingOrbFrame s c p t st).curX - p.posX| ≤ 0.2 ∧
    |(floatingOrbFrame s c p t st).curZ - p.posZ| ≤ 0.15 ∧
    |(floatingIslandFrame s t).1| ≤ 0.1 := by
  have key : ∀ (f : ℚ → ℚ), (∀ u, |f u| ≤ 1) → ∀ (u k : ℚ), 0 ≤ k →
      |f u * k| ≤ k := by
    intro f hf u k hk
    rw [abs_mul, abs_of_nonneg hk]
    exact mul_le_of_le_one_left hk (hf u)
  refine ⟨?_, ?_, ?_, ?_⟩
  · simpa [floatingOrbFrame] using key s hs (t * p.speed) 0.3 (by norm_num)
  · simpa [floatingOrbFrame] using key c hc (t * p.speed * 0.7) 0.2 (by norm_num)
  · simpa [floatingOrbFrame] using key s hs (t * p.speed * 0.5) 0.15 (by norm_num)
  · simpa [floatingIslandFrame] using key s hs (t * 0.3) 0.1 (by norm_num)

/-- Witness for orb_island_offsets_bounded: sin = cos = 0 (bounded by
1), zero parameters, t = 0. -/
theorem orb_island_offsets_bounded_witness :
    |((floatingOrbFrame (fun _ => 0) (fun _ => 0) ⟨0, 0, 0, 1, 1⟩ 0
        ⟨0, 0, 0, 0⟩).curY - 0 : ℚ)| ≤ 0.3 :=
  (orb_island_offsets_bounded (fun _ => 0) (fun _ => 0)
    (by intro u; norm_num) (by intro u; norm_num)
    ⟨0, 0, 0, 1, 1⟩ 0 ⟨0, 0, 0, 0⟩).1

/-- C2 counterexample: re-running the dust per-frame update at the same
elapsed time moves the particle again, so the dust height is accumulated
state, not a pure function of (construction parameters, t).  The update
at src/unnamed/part_001 lines 414-430 never reads the clock; it adds the
velocity to the stored position on every call. -/
theorem dust_update_not_pure :
    dustStepY (1 / 100) (dustStepY (1 / 100) 10) ≠ dustStepY (1 / 100) 10 := by
  norm_num [dustStepY]

/-- C2 amended: the dust-field particle state accumulates across frames:
whenever the advanced height stays within the ceiling 45, the new stored
height is the old stored height plus the per-particle velocity (and the
update never consults elapsed time), so dust positions are a function of
the frame history, not of (params, t) alone. -/
theorem dust_position_accumulates (vy y : ℚ) (h : y + vy ≤ 45) :
    dustStepY vy y = y + vy := by
  simp only [dustStepY]
  exact if_neg (not_lt.2 h)

/-- Witness for dust_position_accumulates at y = 10, vy = 1/100. -/
theorem dust_position_accumulates_witness :
    (10 : ℚ) + 1 / 100 ≤ 45 ∧ dustStepY (1 / 100) 10 = 10 + 1 / 100 :=
  ⟨by norm_num, dust_position_accumulates (1 / 100) 10 (by norm_num)⟩

/-- C3: a dust particle whose height after the velocity step exceeds the
ceiling 45 is reset on that same update to 5, a value in [5, 45); and
every post-update height is at most 45, so over any sequence of frames
no height grows unbounded. -/
theorem dust_height_wrap (vy y : ℚ) (h : 45 < y + vy) :
    dustStepY vy y = 5 ∧ (5 : ℚ) ≤ dustStepY vy y ∧ dustStepY vy y < 45 ∧
    ∀ n, dustIterY vy y (n + 1) ≤ 45 := by
  have hstep : ∀ z : ℚ, dustStepY vy z ≤ 45 := by
    intro z
    by_cases hz : 45 < z + vy
    · simp only [dustStepY, if_pos hz]; norm_num
    · simp only [dustStepY, if_neg hz]; exact le_of_not_lt hz
  have h5 : dustStepY vy y = 5 := by simp only [dustStepY, if_pos h]
  refine ⟨h5, le_of_eq h5.symm, by rw [h5]; norm_num, ?_⟩
  intro n
  show dustStepY vy (dustIterY vy y n) ≤ 45
  exact hstep _

/-- Witness for dust_height_wrap at y = 45, vy = 1. -/
theorem dust_height_wrap_witness :
    (45 : ℚ) < 45 + 1 ∧ dustStepY 1 45 = 5 :=
  ⟨by norm_num, (dust_height_wrap 1 45 (by norm_num)).1⟩

/-- C4 counterexample: the dust height reset is not re-randomized.  For
a particle at height 45 with velocity 1 (advanced height 46 > 45) the
code resets the height to the constant 5, whatever the fresh draw is; a
re-randomized height in the valid band (the construction formula
Math.random() * 40 + 5 at draw 1/2) would be 25.  A different overflow
(44 advanced by 2) resets to the same constant. -/
theorem dust_height_reset_not_rerandomized :
    dustStepY 1 45 = 5 ∧ dustStepY 2 44 = 5 ∧
    dustHeightRandSpec (1 / 2) = 25 ∧ (5 : ℚ) ≠ 25 := by
  norm_num [dustStepY, dustHeightRandSpec]

/-- C4 amended: when |x + vx| (or symmetrically |z + vz|) exceeds 40 the
coordinate is re-randomized to (r - 0.5) * 80, which lies in [-40, 40]
for every fresh draw r in [0, 1); a height exceeding 45 after the
velocity step is instead reset to the constant 5, the bottom of the
valid band, not to a re-randomized value. -/
theorem dust_boundary_policy (r vx x vy y : ℚ)
    (h0 : 0 ≤ r) (h1 : r < 1) (hx : 40 < |x + vx|) (hy : 45 < y + vy) :
    dustStepX r vx x = dustResetXZ r ∧
    -40 ≤ dustStepX r vx x ∧ dustStepX r vx x ≤ 40 ∧
    dustStepY vy y = 5 := by
  have hr : dustStepX r vx x = (r - 0.5) * 80 := by
    simp only [dustStepX, if_pos hx, dustResetXZ]
  refine ⟨by simp only [dustStepX, if_pos hx], ?_, ?_,
    by simp only [dustStepY, if_pos hy]⟩
  · rw [hr]; nlinarith
  · rw [hr]; nlinarith

/-- Witness for dust_boundary_policy at r = 1/2, x = 41, vx = 0,
y = 45, vy = 1. -/
theorem dust_boundary_policy_witness :
    (0 : ℚ) ≤ 1 / 2 ∧ (1 / 2 : ℚ) < 1 ∧ (40 : ℚ) < |(41 : ℚ) + 0| ∧
    (45 : ℚ) < 45 + 1 ∧ dustStepX (1 / 2) 0 41 = dustResetXZ (1 / 2) :=
  ⟨by norm_num, by norm_num, by rw [abs_of_nonneg] <;> norm_num,
    by norm_num,
    (dust_boundary_policy (1 / 2) 0 41 1 45 (by norm_num) (by norm_num)
      (by rw [abs_of_nonneg] <;> norm_num) (by norm_num)).1⟩

/-- C7 counterexample: zero noise is not the identity for the ZenGarden
generator.  It assigns the elevation to the vertex height slot instead
of adding it, so with all four amplitudes zero the base plane vertex
(x, y, z) = (-15, 15, 0) of PlaneGeometry(30, 30, 32, 32) gets height 0,
not its undeformed coordinate 15. -/
theorem zenGarden_zero_noise_not_identity :
    zenGardenDisplaceY (fun u => u) (fun u => u) 0 0 0 0 (-15) 15 0 = 0 ∧
    (0 : ℚ) ≠ 15 := by
  constructor
  · simp [zenGardenDisplaceY, zenGardenElevation]
  · norm_num

/-- C7 amended: for the island generator, whose noise term is added to
the base height, zero amplitudes are the identity on every vertex:
islandDisplaceY with a1 = a2 = 0 returns y unchanged.  (The ZenGarden
generator overwrites the height instead, see the counterexample.) -/
theorem island_zero_noise_identity (s c : ℚ → ℚ) (dist x y : ℚ) :
    islandDisplaceY s c 0 0 dist x y = y := by
  simp [islandDisplaceY]

/-- C6: the water voice buffer has exactly 4 * sampleRate samples, and
every sample — (whiteNoise * 0.5 + flowPattern + bubbleEffect) * 0.3
with whiteNoise = Math.random() * 2 - 1 in [-1, 1) — lies in [-1, 1],
given that sin is bounded by 1 and the random draws lie in [0, 1). -/
theorem createWaterSound_length_bounded (sampleRate : ℕ) (s : ℚ → ℚ)
    (w r : ℕ → ℚ) (hs : ∀ u, |s u| ≤ 1)
    (hw : ∀ n, 0 ≤ w n ∧ w n < 1) (hr : ∀ n, 0 ≤ r n ∧ r n < 1) :
    (createWaterSound sampleRate s w r).length = 4 * sampleRate ∧
    ∀ q ∈ createWaterSound sampleRate s w r, -1 ≤ q ∧ q ≤ 1 := by
  constructor
  · simp [createWaterSound, Nat.mul_comm]
  · intro q hq
    simp only [createWaterSound, List.mem_map] at hq
    obtain ⟨i, _, rfl⟩ := hq
    obtain ⟨hw0, hw1⟩ := hw i
    obtain ⟨hr0, hr1⟩ := hr i
    have hs1 := abs_le.mp (hs (i * 0.001))
    have hs2 := abs_le.mp (hs (i * 0.01))
    have hp1 : s (i * 0.01) * r i ≤ 1 := by nlinarith [hs2.1, hs2.2]
    have hp2 : -1 ≤ s (i * 0.01) * r i := by nlinarith [hs2.1, hs2.2]
    unfold waterSample
    constructor
    · linarith [hs1.1]
    · linarith [hs1.2]

/-- Witness for createWaterSound_length_bounded: sampleRate 1, sin = 0,
all draws 0. -/
theorem createWaterSound_length_bounded_witness :
    (createWaterSound 1 (fun _ => 0) (fun _ => 0) (fun _ => 0)).length = 4 * 1 :=
  (createWaterSound_length_bounded 1 (fun _ => 0) (fun _ => 0) (fun _ => 0)
    (by intro u; norm_num) (by intro n; norm_num) (by intro n; norm_num)).1

/-- C8: every birds / bubbles sample is either exactly 0 — whenever the
per-sample trigger draw is at most the fixed threshold, hence for most
samples — or one decaying-sinusoid value
sin(2π f i / sr) * exp(-(i * 0.0001)) * amplitude whose center frequency
f is drawn from the fixed range, [800, 2000) for birds and [200, 600)
for bubbles, given frequency draws in [0, 1). -/
theorem bird_bubble_sample_structure (sr : ℕ) (s e : ℚ → ℚ) (twoPi : ℚ)
    (trig fr : ℕ → ℚ) (i : ℕ) (hfr0 : 0 ≤ fr i) (hfr1 : fr i < 1) :
    (trig i ≤ 0.999 → birdSample sr s e twoPi trig fr i = 0) ∧
    (0.999 < trig i → ∃ f, 800 ≤ f ∧ f < 2000 ∧
      birdSample sr s e twoPi trig fr i =
        s (twoPi * f * i / sr) * e (-(i * 0.0001)) * 0.1) ∧
    (trig i ≤ 0.9995 → bubbleSample sr s e twoPi trig fr i = 0) ∧
    (0.9995 < trig i → ∃ f, 200 ≤ f ∧ f < 600 ∧
      bubbleSample sr s e twoPi trig fr i =
        s (twoPi * f * i / sr) * e (-(i * 0.0001)) * 0.05) := by
  refine ⟨fun h => ?_, fun h => ?_, fun h => ?_, fun h => ?_⟩
  · simp only [birdSample, if_neg (not_lt.2 h)]
  · exact ⟨800 + fr i * 1200, by linarith, by linarith,
      by simp only [birdSample, if_pos h]⟩
  · simp only [bubbleSample, if_neg (not_lt.2 h)]
  · exact ⟨200 + fr i * 400, by linarith, by linarith,
      by simp only [bubbleSample, if_pos h]⟩

/-- Witness for bird_bubble_sample_structure: trigger draw 0 is below
the threshold, so the sample is silence. -/
theorem bird_bubble_sample_structure_witness :
    birdSample 1 (fun u => u) (fun u => u) 6 (fun _ => 0) (fun _ => 0) 0 = 0 :=
  (bird_bubble_sample_structure 1 (fun u => u) (fun u => u) 6 (fun _ => 0)
    (fun _ => 0) 0 (by norm_num) (by norm_num)).1 (by norm_num)

/-- C9 counterexample: stop is invoked twice on a source started once.
From ambientInit the effect of AmbientSounds.tsx lines 172-190 (deps
[audioContext, startAmbientSounds]) starts the three voices;
setIsPlaying(true) recreates the useCallback (its deps at line 160
include isPlaying), so the effect cleanup runs stopAmbientSounds (first
stop) and the effect re-runs with the stale captured isPlaying = true, a
no-op; the cleanup at the next deps change or at unmount runs
stopAmbientSounds again, and because the refs are never cleared the same
already-stopped source receives a second stop (a WebAudio
InvalidStateError). -/
theorem ambient_source_double_stop :
    (stopAmbientSounds (startAmbientSoundsC true true
      (stopAmbientSounds (startAmbientSoundsC true false
        ambientInit)))).refs.waterSource =
      some { started := 1, stopped := 2 } :=
  rfl

/-- C9 amended: on every teardown path each started source has its stop
invoked at least once: a stopAmbientSounds / stopStreamAudio call
increments the stop count of every ref-held source and clears isPlaying,
so no started source is left playing.  Exactly-once does not hold: the
refs are never cleared, so a repeated cleanup stops a source twice (see
the counterexample). -/
theorem teardown_stops_all_sources (sa : AmbientState) (ss : StreamState)
    (n1 n2 n3 m1 m2 m3 : SrcNode)
    (h1 : sa.refs.waterSource = some n1)
    (h2 : sa.refs.birdsSource = some n2)
    (h3 : sa.refs.breezeSource = some n3)
    (g1 : ss.refs.streamSource = some m1)
    (g2 : ss.refs.bubblesSource = some m2)
    (g3 : ss.refs.gentleFlowSource = some m3) :
    (stopAmbientSounds sa).refs.waterSource =
      some { started := n1.started, stopped := n1.stopped + 1 } ∧
    (stopAmbientSounds sa).refs.birdsSource =
      some { started := n2.started, stopped := n2.stopped + 1 } ∧
    (stopAmbientSounds sa).refs.breezeSource =
      some { started := n3.started, stopped := n3.stopped + 1 } ∧
    (stopAmbientSounds sa).isPlaying = false ∧
    (stopStreamAudioModel ss).refs.streamSource =
      some { started := m1.started, stopped := m1.stopped + 1 } ∧
    (stopStreamAudioModel ss).refs.bubblesSource =
      some { started := m2.started, stopped := m2.stopped + 1 } ∧
    (stopStreamAudioModel ss).refs.gentleFlowSource =
      some { started := m3.started, stopped := m3.stopped + 1 } ∧
    (stopStreamAudioModel ss).isPlaying = false := by
  simp [stopAmbientSounds, stopStreamAudioModel, stopNode,
    h1, h2, h3, g1, g2, g3]

/-- Witness for teardown_stops_all_sources on states holding one
started, never-stopped source in every slot. -/
theorem teardown_stops_all_sources_witness :
    (stopAmbientSounds
      { ctxCreated := true, isPlaying := true
        refs := { waterSource := some { started := 1, stopped := 0 }
                  birdsSource := some { started := 1, stopped := 0 }
                  breezeSource := some { started := 1, stopped := 0 } } }).refs.waterSource =
      some { started := 1, stopped := 1 } :=
  (teardown_stops_all_sources
    { ctxCreated := true, isPlaying := true
      refs := { waterSource := some { started := 1, stopped := 0 }
                birdsSource := some { started := 1, stopped := 0 }
                breezeSource := some { started := 1, stopped := 0 } } }
    { ctxCreated := true, isPlaying := true
      refs := { streamSource := some { started := 1, stopped := 0 }
                bubblesSource := some { started := 1, stopped := 0 }
                gentleFlowSource := some { started := 1, stopped := 0 } } }
    { started := 1, stopped := 0 } { started := 1, stopped := 0 }
    { started := 1, stopped := 0 } { started := 1, stopped := 0 }
    { started := 1, stopped := 0 } { started := 1, stopped := 0 }
    rfl rfl rfl rfl rfl rfl).1

/-- C10: calling startAmbientSounds / startStreamAudio before the audio
context exists or while playback is already active is a no-op leaving
the whole state (refs included) unchanged, and the start operation is
idempotent, so the combined auto-start plus first-interaction path
starts each voice's sources at most once per playing session. -/
theorem start_guard_no_op (sa : AmbientState) (ss : StreamState) :
    (sa.ctxCreated = false → startAmbientSounds sa = sa) ∧
    (sa.isPlaying = true → startAmbientSounds sa = sa) ∧
    startAmbientSounds (startAmbientSounds sa) = startAmbientSounds sa ∧
    (ss.ctxCreated = false → startStreamAudioModel ss = ss) ∧
    (ss.isPlaying = true → startStreamAudioModel ss = ss) ∧
    startStreamAudioModel (startStreamAudioModel ss) = startStreamAudioModel ss := by
  obtain ⟨ca, pa, ra⟩ := sa
  obtain ⟨cs, ps, rs⟩ := ss
  cases ca <;> cases pa <;> cases cs <;> cases ps <;>
    simp [startAmbientSounds, startAmbientSoundsC,
      startStreamAudioModel, startStreamAudioModelC]

/-- Witness for start_guard_no_op: with no audio context the start call
leaves the state unchanged. -/
theorem start_guard_no_op_witness :
    startAmbientSounds
      { ctxCreated := false, isPlaying := false
        refs := { waterSource := none, birdsSource := none, breezeSource := none } } =
    { ctxCreated := false, isPlaying := false
      refs := { waterSource := none, birdsSource := none, breezeSource := none } } :=
  (start_guard_no_op
    { ctxCreated := false, isPlaying := false
      refs := { waterSource := none, birdsSource := none, breezeSource := none } }
    { ctxCreated := false, isPlaying := false
      refs := { streamSource := none, bubblesSource := none,
                gentleFlowSource := none } }).1 rfl
